import Mathlib

/-!
Shallow embedding of the procedural surface-shading pipeline in
src/src/shaders.rs (vertex transformation plus nine procedural material
shaders), together with proofs of the specification claims.

Conventions of the embedding:
* Rust f32 values are modelled as exact rationals (ℚ); float rounding is
  abstracted away, so "within floating tolerance" becomes exact equality.
* The noise capability (FastNoise get_noise_2d / get_noise_3d), the f32
  sine function, and the rand StdRng draw are external deterministic
  functions consumed by the shaders; they are threaded through the
  Uniforms bundle as read-only function-valued fields, matching the spec
  assumption that they are deterministic for identical inputs.
* The Color, Vertex, Fragment and Uniforms types are not under src/
  (only shaders.rs is); they are modelled from the spec, see the doc
  comments on each.
-/

namespace Lab4

/-- Rational model of the f32 clamp method: clampf x lo hi clamps x into
the interval from lo to hi. -/
def clampf (x lo hi : ℚ) : ℚ := min hi (max lo x)

/-- Model of nalgebra_glm Vec2 over exact rationals. -/
structure Vec2 where
  x : ℚ
  y : ℚ
deriving DecidableEq

/-- Model of nalgebra_glm Vec3 over exact rationals. -/
structure Vec3 where
  x : ℚ
  y : ℚ
  z : ℚ
deriving DecidableEq

/-- Model of nalgebra_glm Vec4 over exact rationals. -/
structure Vec4 where
  x : ℚ
  y : ℚ
  z : ℚ
  w : ℚ
deriving DecidableEq

/-- Dot product of two 3-vectors (nalgebra_glm dot). -/
def Vec3.dot (a b : Vec3) : ℚ := a.x * b.x + a.y * b.y + a.z * b.z

/-- Model of nalgebra_glm Mat3 (row-major entries mRC). -/
structure Mat3 where
  m00 : ℚ
  m01 : ℚ
  m02 : ℚ
  m10 : ℚ
  m11 : ℚ
  m12 : ℚ
  m20 : ℚ
  m21 : ℚ
  m22 : ℚ
deriving DecidableEq

/-- Model of nalgebra_glm Mat4 (row-major entries mRC). -/
structure Mat4 where
  m00 : ℚ
  m01 : ℚ
  m02 : ℚ
  m03 : ℚ
  m10 : ℚ
  m11 : ℚ
  m12 : ℚ
  m13 : ℚ
  m20 : ℚ
  m21 : ℚ
  m22 : ℚ
  m23 : ℚ
  m30 : ℚ
  m31 : ℚ
  m32 : ℚ
  m33 : ℚ
deriving DecidableEq

/-- The 3x3 identity matrix (nalgebra Mat3 identity). -/
def Mat3.identity : Mat3 := ⟨1, 0, 0, 0, 1, 0, 0, 0, 1⟩

/-- The 4x4 identity matrix (nalgebra Mat4 identity). -/
def Mat4.identity : Mat4 := ⟨1, 0, 0, 0, 0, 1, 0, 0, 0, 0, 1, 0, 0, 0, 0, 1⟩

/-- Matrix-vector product of a Mat3 and a Vec3. -/
def Mat3.mulVec (m : Mat3) (v : Vec3) : Vec3 :=
  ⟨m.m00 * v.x + m.m01 * v.y + m.m02 * v.z,
   m.m10 * v.x + m.m11 * v.y + m.m12 * v.z,
   m.m20 * v.x + m.m21 * v.y + m.m22 * v.z⟩

/-- Matrix-vector product of a Mat4 and a Vec4. -/
def Mat4.mulVec (m : Mat4) (v : Vec4) : Vec4 :=
  ⟨m.m00 * v.x + m.m01 * v.y + m.m02 * v.z + m.m03 * v.w,
   m.m10 * v.x + m.m11 * v.y + m.m12 * v.z + m.m13 * v.w,
   m.m20 * v.x + m.m21 * v.y + m.m22 * v.z + m.m23 * v.w,
   m.m30 * v.x + m.m31 * v.y + m.m32 * v.z + m.m33 * v.w⟩

/-- Matrix-matrix product of two Mat4 values. -/
def Mat4.mul (a b : Mat4) : Mat4 :=
  ⟨a.m00 * b.m00 + a.m01 * b.m10 + a.m02 * b.m20 + a.m03 * b.m30,
   a.m00 * b.m01 + a.m01 * b.m11 + a.m02 * b.m21 + a.m03 * b.m31,
   a.m00 * b.m02 + a.m01 * b.m12 + a.m02 * b.m22 + a.m03 * b.m32,
   a.m00 * b.m03 + a.m01 * b.m13 + a.m02 * b.m23 + a.m03 * b.m33,
   a.m10 * b.m00 + a.m11 * b.m10 + a.m12 * b.m20 + a.m13 * b.m30,
   a.m10 * b.m01 + a.m11 * b.m11 + a.m12 * b.m21 + a.m13 * b.m31,
   a.m10 * b.m02 + a.m11 * b.m12 + a.m12 * b.m22 + a.m13 * b.m32,
   a.m10 * b.m03 + a.m11 * b.m13 + a.m12 * b.m23 + a.m13 * b.m33,
   a.m20 * b.m00 + a.m21 * b.m10 + a.m22 * b.m20 + a.m23 * b.m30,
   a.m20 * b.m01 + a.m21 * b.m11 + a.m22 * b.m21 + a.m23 * b.m31,
   a.m20 * b.m02 + a.m21 * b.m12 + a.m22 * b.m22 + a.m23 * b.m32,
   a.m20 * b.m03 + a.m21 * b.m13 + a.m22 * b.m23 + a.m23 * b.m33,
   a.m30 * b.m00 + a.m31 * b.m10 + a.m32 * b.m20 + a.m33 * b.m30,
   a.m30 * b.m01 + a.m31 * b.m11 + a.m32 * b.m21 + a.m33 * b.m31,
   a.m30 * b.m02 + a.m31 * b.m12 + a.m32 * b.m22 + a.m33 * b.m32,
   a.m30 * b.m03 + a.m31 * b.m13 + a.m32 * b.m23 + a.m33 * b.m33⟩

/-- Transpose of a Mat3. -/
def Mat3.transpose (m : Mat3) : Mat3 :=
  ⟨m.m00, m.m10, m.m20, m.m01, m.m11, m.m21, m.m02, m.m12, m.m22⟩

/-- Determinant of a Mat3 (cofactor expansion along the first row). -/
def Mat3.det (m : Mat3) : ℚ :=
  m.m00 * (m.m11 * m.m22 - m.m12 * m.m21)
  - m.m01 * (m.m10 * m.m22 - m.m12 * m.m20)
  + m.m02 * (m.m10 * m.m21 - m.m11 * m.m20)

/-- Inverse of a Mat3 by the adjugate formula; only meaningful when the
determinant is nonzero (tryInverse guards that). -/
def Mat3.inverse (m : Mat3) : Mat3 :=
  let d := m.det
  ⟨(m.m11 * m.m22 - m.m12 * m.m21) / d,
   (m.m02 * m.m21 - m.m01 * m.m22) / d,
   (m.m01 * m.m12 - m.m02 * m.m11) / d,
   (m.m12 * m.m20 - m.m10 * m.m22) / d,
   (m.m00 * m.m22 - m.m02 * m.m20) / d,
   (m.m02 * m.m10 - m.m00 * m.m12) / d,
   (m.m10 * m.m21 - m.m11 * m.m20) / d,
   (m.m01 * m.m20 - m.m00 * m.m21) / d,
   (m.m00 * m.m11 - m.m01 * m.m10) / d⟩

/-- Model of nalgebra try_inverse on Mat3: some inverse when the matrix is
invertible (nonzero determinant), none otherwise. -/
def Mat3.tryInverse (m : Mat3) : Option Mat3 :=
  if m.det = 0 then none else some m.inverse

/-- Model of nalgebra_glm mat4_to_mat3: the upper-left 3x3 block. -/
def mat4_to_mat3 (m : Mat4) : Mat3 :=
  ⟨m.m00, m.m01, m.m02, m.m10, m.m11, m.m12, m.m20, m.m21, m.m22⟩

/-- Modelled from the spec: the Color type of the missing color.rs. An RGB
triple with channel semantics 0 to 255 (section 3 of the spec); channels
are kept as exact rationals because interpolation and scaling produce
fractional intermediate values. -/
structure Color where
  r : ℚ
  g : ℚ
  b : ℚ
deriving DecidableEq

/-- Modelled from the spec: the Color constructor of the missing color.rs. -/
def Color.new (r g b : ℚ) : Color := ⟨r, g, b⟩

/-- Modelled from the spec: linear interpolation between two colors by a
blend factor; out-of-range factors extrapolate and the result is NOT
clamped (section 3 and section 7 of the spec: clamp only at the final
intensity-scale step). -/
def Color.lerp (a b : Color) (t : ℚ) : Color :=
  ⟨a.r + (b.r - a.r) * t,
   a.g + (b.g - a.g) * t,
   a.b + (b.b - a.b) * t⟩

/-- Modelled from the spec: scaling a Color by a floating intensity
factor, channel-wise, with the result then clamped to the range 0 to 255
per channel (section 3 of the spec). -/
def Color.scale (c : Color) (f : ℚ) : Color :=
  ⟨clampf (c.r * f) 0 255, clampf (c.g * f) 0 255, clampf (c.b * f) 0 255⟩

instance : HMul Color ℚ Color := ⟨Color.scale⟩

/-- A color whose three channels all lie in the displayable range 0 to
255. -/
def Color.inRange (c : Color) : Prop :=
  0 ≤ c.r ∧ c.r ≤ 255 ∧ 0 ≤ c.g ∧ c.g ≤ 255 ∧ 0 ≤ c.b ∧ c.b ≤ 255

instance (c : Color) : Decidable c.inRange := by
  unfold Color.inRange; infer_instance

/-- Modelled from the spec: the noise-field capability referenced by the
Uniforms bundle (2D and 3D scalar sampling, deterministic for identical
inputs). -/
structure NoiseCapability where
  get_noise_2d : ℚ → ℚ → ℚ
  get_noise_3d : ℚ → ℚ → ℚ → ℚ

/-- Modelled from the spec: the Uniforms bundle of the missing main.rs
(model, view, projection and viewport matrices, the elapsed time, and the
noise capability).  Two ambient external functions used by shaders.rs are
threaded here as additional read-only deterministic capabilities: fsin
models the f32 sine method, and rng_gen_range models the composite
StdRng::seed_from_u64 followed by gen_range(0..=100) of the rand crate
(a deterministic function of the seed, per section 4.3 of the spec). -/
structure Uniforms where
  model_matrix : Mat4
  view_matrix : Mat4
  projection_matrix : Mat4
  viewport_matrix : Mat4
  time : ℚ
  noise : NoiseCapability
  fsin : ℚ → ℚ
  rng_gen_range : ℕ → ℕ

/-- Modelled from the spec: the Fragment type of the missing fragment.rs;
fields as used by shaders.rs: an interpolated vertex-space position, an
interpolated normal, a depth value, and a scalar lighting intensity. -/
structure Fragment where
  vertex_position : Vec3
  normal : Vec3
  depth : ℚ
  intensity : ℚ
deriving DecidableEq

/-- Modelled from the spec: the Vertex type of the missing vertex.rs;
geometric attributes plus the two derived fields populated by
vertex_shader. -/
structure Vertex where
  position : Vec3
  normal : Vec3
  tex_coords : Vec2
  color : Color
  transformed_position : Vec3
  transformed_normal : Vec3
deriving DecidableEq

/-- Model of the Rust cast chain seed.abs() as u64: absolute value, then
truncation toward zero, saturating at the largest u64 value. -/
def f32AbsAsU64 (q : ℚ) : ℕ := min (2 ^ 64 - 1) (Int.toNat ⌊|q|⌋)

/-- Embedding of vertex_shader (shaders.rs lines 12 to 45): lift the
position to homogeneous form with w = 1, apply projection, view and model
matrices in that order, perspective-divide by w, apply the viewport
matrix, and transform the normal by the inverse of the transpose of the
upper-left 3x3 block of the model matrix, substituting the identity when
that block is not invertible. -/
def vertex_shader (vertex : Vertex) (uniforms : Uniforms) : Vertex :=
  let position : Vec4 :=
    ⟨vertex.position.x, vertex.position.y, vertex.position.z, 1⟩
  let transformed :=
    Mat4.mulVec
      (Mat4.mul (Mat4.mul uniforms.projection_matrix uniforms.view_matrix)
        uniforms.model_matrix)
      position
  let w := transformed.w
  let transformed_position : Vec4 :=
    ⟨transformed.x / w, transformed.y / w, transformed.z / w, 1⟩
  let screen_position := Mat4.mulVec uniforms.viewport_matrix transformed_position
  let model_mat3 := mat4_to_mat3 uniforms.model_matrix
  let normal_matrix := (Mat3.tryInverse model_mat3.transpose).getD Mat3.identity
  let transformed_normal := Mat3.mulVec normal_matrix vertex.normal
  { position := vertex.position
    normal := vertex.normal
    tex_coords := vertex.tex_coords
    color := vertex.color
    transformed_position := ⟨screen_position.x, screen_position.y, screen_position.z⟩
    transformed_normal := transformed_normal }

/-- Color computed by black_and_white (shaders.rs lines 64 to 78) before
the final intensity scaling: seed the generator from the truncated
absolute value of time * y * x and pick black below 50, white otherwise. -/
def black_and_white_precolor (fragment : Fragment) (uniforms : Uniforms) : Color :=
  let seed := uniforms.time * fragment.vertex_position.y * fragment.vertex_position.x
  let random_number := uniforms.rng_gen_range (f32AbsAsU64 seed)
  if random_number < 50 then Color.new 0 0 0 else Color.new 255 255 255

/-- Embedding of black_and_white (shaders.rs lines 64 to 78). -/
def black_and_white (fragment : Fragment) (uniforms : Uniforms) : Color :=
  black_and_white_precolor fragment uniforms * fragment.intensity

/-- Color computed by dalmata_shader (shaders.rs lines 80 to 103) before
the final intensity scaling: sample 2D noise at the zoomed position and
pick white below the 0.5 spot threshold, black otherwise. -/
def dalmata_precolor (fragment : Fragment) (uniforms : Uniforms) : Color :=
  let zoom : ℚ := 100
  let ox : ℚ := 0
  let oy : ℚ := 0
  let x := fragment.vertex_position.x
  let y := fragment.vertex_position.y
  let noise_value := uniforms.noise.get_noise_2d ((x + ox) * zoom) ((y + oy) * zoom)
  let spot_threshold : ℚ := 0.5
  let spot_color := Color.new 255 255 255
  let base_color := Color.new 0 0 0
  if noise_value < spot_threshold then spot_color else base_color

/-- Embedding of dalmata_shader (shaders.rs lines 80 to 103). -/
def dalmata_shader (fragment : Fragment) (uniforms : Uniforms) : Color :=
  dalmata_precolor fragment uniforms * fragment.intensity

/-- Color computed by cloud_shader (shaders.rs lines 105 to 128) before
the final intensity scaling. -/
def cloud_precolor (fragment : Fragment) (uniforms : Uniforms) : Color :=
  let zoom : ℚ := 100
  let ox : ℚ := 100
  let oy : ℚ := 100
  let x := fragment.vertex_position.x
  let y := fragment.vertex_position.y
  let t := uniforms.time * 0.5
  let noise_value := uniforms.noise.get_noise_2d (x * zoom + ox + t) (y * zoom + oy)
  let cloud_threshold : ℚ := 0.5
  let cloud_color := Color.new 255 255 255
  let sky_color := Color.new 30 97 145
  if noise_value > cloud_threshold then cloud_color else sky_color

/-- Embedding of cloud_shader (shaders.rs lines 105 to 128). -/
def cloud_shader (fragment : Fragment) (uniforms : Uniforms) : Color :=
  cloud_precolor fragment uniforms * fragment.intensity

/-- Color computed by cellular_shader (shaders.rs lines 130 to 159)
before the final intensity scaling. -/
def cellular_precolor (fragment : Fragment) (uniforms : Uniforms) : Color :=
  let zoom : ℚ := 30
  let ox : ℚ := 50
  let oy : ℚ := 50
  let x := fragment.vertex_position.x
  let y := fragment.vertex_position.y
  let cell_noise_value := |uniforms.noise.get_noise_2d (x * zoom + ox) (y * zoom + oy)|
  let cell_color_1 := Color.new 85 107 47
  let cell_color_2 := Color.new 124 252 0
  let cell_color_3 := Color.new 34 139 34
  let cell_color_4 := Color.new 173 255 47
  if cell_noise_value < 0.15 then cell_color_1
  else if cell_noise_value < 0.7 then cell_color_2
  else if cell_noise_value < 0.75 then cell_color_3
  else cell_color_4

/-- Embedding of cellular_shader (shaders.rs lines 130 to 159). -/
def cellular_shader (fragment : Fragment) (uniforms : Uniforms) : Color :=
  cellular_precolor fragment uniforms * fragment.intensity

/-- Averaged two-sample 3D noise value used by lava_shader (shaders.rs
lines 161 to 199). -/
def lava_noise_value (fragment : Fragment) (uniforms : Uniforms) : ℚ :=
  let position : Vec3 :=
    ⟨fragment.vertex_position.x, fragment.vertex_position.y, fragment.depth⟩
  let base_frequency : ℚ := 0.2
  let pulsate_amplitude : ℚ := 0.5
  let t := uniforms.time * 0.01
  let pulsate := uniforms.fsin (t * base_frequency) * pulsate_amplitude
  let zoom : ℚ := 1000
  let noise_value1 := uniforms.noise.get_noise_3d
    (position.x * zoom) (position.y * zoom) ((position.z + pulsate) * zoom)
  let noise_value2 := uniforms.noise.get_noise_3d
    ((position.x + 1000) * zoom) ((position.y + 1000) * zoom)
    ((position.z + 1000 + pulsate) * zoom)
  (noise_value1 + noise_value2) * 0.5

/-- Color computed by lava_shader (shaders.rs lines 161 to 199) before
the final intensity scaling: lerp dark toward bright by the averaged
noise value. -/
def lava_precolor (fragment : Fragment) (uniforms : Uniforms) : Color :=
  let bright_color := Color.new 255 240 0
  let dark_color := Color.new 130 20 0
  dark_color.lerp bright_color (lava_noise_value fragment uniforms)

/-- Embedding of lava_shader (shaders.rs lines 161 to 199). -/
def lava_shader (fragment : Fragment) (uniforms : Uniforms) : Color :=
  lava_precolor fragment uniforms * fragment.intensity

/-- Averaged two-sample 3D noise value used by solar_shader (shaders.rs
lines 202 to 244). -/
def solar_noise_value (fragment : Fragment) (uniforms : Uniforms) : ℚ :=
  let position : Vec3 :=
    ⟨fragment.vertex_position.x, fragment.vertex_position.y, fragment.depth⟩
  let base_frequency : ℚ := 0.5
  let pulsate_amplitude : ℚ := 0.6
  let t := uniforms.time * 0.02
  let pulsate := uniforms.fsin (t * base_frequency) * pulsate_amplitude
  let zoom : ℚ := 1000
  let noise_value1 := uniforms.noise.get_noise_3d
    (position.x * zoom) (position.y * zoom) ((position.z + pulsate) * zoom)
  let noise_value2 := uniforms.noise.get_noise_3d
    ((position.x + 1000) * zoom) ((position.y + 1000) * zoom)
    ((position.z + 1000 + pulsate) * zoom)
  (noise_value1 + noise_value2) * 0.5

/-- Color computed by solar_shader (shaders.rs lines 202 to 244) before
the final intensity scaling: lerp the core color toward the mid color by
the absolute noise value, then lerp the result toward the corona color by
the rescaled clamped factor. -/
def solar_precolor (fragment : Fragment) (uniforms : Uniforms) : Color :=
  let core_color := Color.new 255 255 200
  let mid_color := Color.new 255 223 0
  let corona_color := Color.new 255 140 0
  let noise_value := solar_noise_value fragment uniforms
  (core_color.lerp mid_color |noise_value|).lerp corona_color
    (clampf (noise_value * 0.5 + 0.5) 0 1)

/-- Embedding of solar_shader (shaders.rs lines 202 to 244). -/
def solar_shader (fragment : Fragment) (uniforms : Uniforms) : Color :=
  solar_precolor fragment uniforms * fragment.intensity

/-- Averaged two-sample 3D noise value used by rock_shader (shaders.rs
lines 246 to 314). -/
def rock_noise_value (fragment : Fragment) (uniforms : Uniforms) : ℚ :=
  let position : Vec3 :=
    ⟨fragment.vertex_position.x, fragment.vertex_position.y, fragment.depth⟩
  let t := uniforms.time * 0.01
  let pulsate := uniforms.fsin (t * 0.5) * 0.1
  let zoom : ℚ := 1000
  let noise_value1 := uniforms.noise.get_noise_3d
    ((position.x + pulsate) * zoom) ((position.y + pulsate) * zoom)
    (position.z * zoom + t)
  let noise_value2 := uniforms.noise.get_noise_3d
    ((position.x + 1000 + pulsate) * zoom) ((position.y + 1000 + pulsate) * zoom)
    (position.z * zoom + t)
  (noise_value1 + noise_value2) * 0.5

/-- Threshold classification of rock_shader (shaders.rs lines 281 to
304): ordered strict comparisons of the averaged noise value against the
six thresholds 0.6, 0.4, 0.2, 0.0, -0.2, -0.4 picking one of seven beige
to brown palette colors. -/
def rock_base_color (noise_value : ℚ) : Color :=
  let color_1 := Color.new 245 222 179
  let color_2 := Color.new 222 184 135
  let color_3 := Color.new 210 180 140
  let color_4 := Color.new 188 143 143
  let color_5 := Color.new 205 133 63
  let color_6 := Color.new 139 69 19
  let color_7 := Color.new 160 82 45
  if noise_value > 0.6 then color_1
  else if noise_value > 0.4 then color_2
  else if noise_value > 0.2 then color_3
  else if noise_value > 0 then color_4
  else if noise_value > -0.2 then color_5
  else if noise_value > -0.4 then color_6
  else color_7

/-- Color computed by rock_shader (shaders.rs lines 246 to 314) before
the final intensity scaling: the threshold classification scaled by the
diffuse lighting term 0.6 + 0.4 * max(dot(light_dir, normal), 0).  The
source light direction Vec3(1, 1, 0.5).normalize() has exact norm 1.5,
so the normalized constant is (2/3, 2/3, 1/3). -/
def rock_precolor (fragment : Fragment) (uniforms : Uniforms) : Color :=
  let base_color := rock_base_color (rock_noise_value fragment uniforms)
  let light_dir : Vec3 := ⟨2 / 3, 2 / 3, 1 / 3⟩
  let diffuse_intensity := max (Vec3.dot light_dir fragment.normal) 0
  base_color * (0.6 + 0.4 * diffuse_intensity)

/-- Embedding of rock_shader (shaders.rs lines 246 to 314). -/
def rock_shader (fragment : Fragment) (uniforms : Uniforms) : Color :=
  rock_precolor fragment uniforms * fragment.intensity

/-- Averaged two-sample 3D noise value used by rainforest_shader
(shaders.rs lines 317 to 357). -/
def rainforest_noise_value (fragment : Fragment) (uniforms : Uniforms) : ℚ :=
  let position : Vec3 :=
    ⟨fragment.vertex_position.x, fragment.vertex_position.y, fragment.depth⟩
  let t := uniforms.time * 0.01
  let pulsate := uniforms.fsin (t * 0.3) * 0.5
  let zoom : ℚ := 200
  let noise_value1 := uniforms.noise.get_noise_3d
    ((position.x + pulsate) * zoom) ((position.y + pulsate) * zoom)
    (position.z * zoom + t)
  let noise_value2 := uniforms.noise.get_noise_3d
    ((position.x - pulsate) * zoom) ((position.y - pulsate) * zoom)
    (position.z * zoom - t)
  (noise_value1 + noise_value2) * 0.5

/-- Color computed by rainforest_shader (shaders.rs lines 317 to 357)
before the final intensity scaling: cloud color lerped toward fog color
by the absolute noise value, then lerped again toward fog color by one
minus the clamped density gradient. -/
def rainforest_precolor (fragment : Fragment) (uniforms : Uniforms) : Color :=
  let cloud_color := Color.new 255 255 255
  let fog_color := Color.new 120 120 120
  let noise_value := rainforest_noise_value fragment uniforms
  let gradient := clampf (1 - |fragment.vertex_position.y|) 0 1
  (cloud_color.lerp fog_color |noise_value|).lerp fog_color (1 - gradient)

/-- Embedding of rainforest_shader (shaders.rs lines 317 to 357). -/
def rainforest_shader (fragment : Fragment) (uniforms : Uniforms) : Color :=
  rainforest_precolor fragment uniforms * fragment.intensity

/-- Averaged two-sample 3D noise value used by clay_shader (shaders.rs
lines 360 to 421). -/
def clay_noise_value (fragment : Fragment) (uniforms : Uniforms) : ℚ :=
  let position : Vec3 :=
    ⟨fragment.vertex_position.x, fragment.vertex_position.y, fragment.depth⟩
  let t := uniforms.time * 0.02
  let pulsate := uniforms.fsin (t * 0.3) * 0.3
  let zoom : ℚ := 500
  let noise_value1 := uniforms.noise.get_noise_3d
    ((position.x + pulsate) * zoom) ((position.y + pulsate) * zoom)
    (position.z * zoom + t)
  let noise_value2 := uniforms.noise.get_noise_3d
    ((position.x - pulsate) * zoom) ((position.y - pulsate) * zoom)
    (position.z * zoom - t)
  (noise_value1 + noise_value2) * 0.5

/-- Color computed by clay_shader (shaders.rs lines 360 to 421) before
the final intensity scaling: threshold classification into five blues,
then a lerp toward the darkest blue by one minus the clamped gradient. -/
def clay_precolor (fragment : Fragment) (uniforms : Uniforms) : Color :=
  let color_1 := Color.new 173 216 230
  let color_2 := Color.new 135 206 250
  let color_3 := Color.new 70 130 180
  let color_4 := Color.new 30 144 255
  let color_5 := Color.new 0 105 148
  let noise_value := clay_noise_value fragment uniforms
  let gradient := clampf (1 - |fragment.vertex_position.y|) 0 1
  let base_color :=
    if noise_value > 0.4 then color_1
    else if noise_value > 0.2 then color_2
    else if noise_value > 0 then color_3
    else if noise_value > -0.2 then color_4
    else color_5
  base_color.lerp color_5 (1 - gradient)

/-- Embedding of clay_shader (shaders.rs lines 360 to 421). -/
def clay_shader (fragment : Fragment) (uniforms : Uniforms) : Color :=
  clay_precolor fragment uniforms * fragment.intensity

/-- Embedding of fragment_shader (shaders.rs lines 47 to 60): dispatch on
the selector, defaulting to lava_shader for any unrecognized value.  The
Rust selector type is u8; the embedding uses ℕ, which agrees with u8 on
its whole range 0 to 255 and keeps the same default arm beyond it. -/
def fragment_shader (fragment : Fragment) (uniforms : Uniforms)
    (current_shader : ℕ) : Color :=
  match current_shader with
  | 1 => black_and_white fragment uniforms
  | 2 => dalmata_shader fragment uniforms
  | 3 => cloud_shader fragment uniforms
  | 4 => cellular_shader fragment uniforms
  | 5 => lava_shader fragment uniforms
  | 6 => solar_shader fragment uniforms
  | 7 => rock_shader fragment uniforms
  | 8 => rainforest_shader fragment uniforms
  | 9 => clay_shader fragment uniforms
  | _ => lava_shader fragment uniforms

/-! Helper lemmas and concrete test fixtures. -/

/-- Unfolding lemma for the scaling instance on Color. -/
lemma Color.mul_def (c : Color) (f : ℚ) : c * f = Color.scale c f := rfl

/-- Clamping a value already inside the clamp interval is the identity. -/
lemma clampf_eq_self {x : ℚ} (h0 : 0 ≤ x) (h1 : x ≤ 255) :
    clampf x 0 255 = x := by
  unfold clampf
  rw [max_eq_right h0, min_eq_right h1]

/-- The product of two 4x4 identity matrices is the identity. -/
lemma Mat4.mul_identity_identity :
    Mat4.mul Mat4.identity Mat4.identity = Mat4.identity := by
  simp [Mat4.mul, Mat4.identity]

/-- The 4x4 identity matrix acts as the identity on 4-vectors. -/
lemma Mat4.identity_mulVec4 (v : Vec4) : Mat4.mulVec Mat4.identity v = v := by
  cases v
  simp [Mat4.mulVec, Mat4.identity]

/-- The 3x3 identity matrix acts as the identity on 3-vectors. -/
lemma Mat3.identity_mulVec3 (v : Vec3) : Mat3.mulVec Mat3.identity v = v := by
  cases v
  simp [Mat3.mulVec, Mat3.identity]

/-- The determinant of a Mat3 is invariant under transposition. -/
lemma Mat3.det_transpose (m : Mat3) : m.transpose.det = m.det := by
  cases m
  unfold Mat3.transpose Mat3.det
  ring

/-- A noise capability that returns the same constant for every sample,
used to drive the threshold claims with synthetic noise values. -/
def constNoise (c : ℚ) : NoiseCapability :=
  ⟨fun _ _ => c, fun _ _ _ => c⟩

/-- A concrete uniforms bundle: all matrices the identity, time 0,
constant noise c, zero sine stand-in and a simple deterministic draw. -/
def testUniforms (c : ℚ) : Uniforms :=
  { model_matrix := Mat4.identity
    view_matrix := Mat4.identity
    projection_matrix := Mat4.identity
    viewport_matrix := Mat4.identity
    time := 0
    noise := constNoise c
    fsin := fun _ => 0
    rng_gen_range := fun n => n % 101 }

/-- A concrete fragment at the origin with unit intensity. -/
def testFragment : Fragment := ⟨⟨0, 0, 0⟩, ⟨0, 0, 1⟩, 0, 1⟩

/-- A concrete fragment away from the origin with intensity one half. -/
def testFragmentHalf : Fragment := ⟨⟨1, 2, 3⟩, ⟨0, 1, 0⟩, 3, 1 / 2⟩

/-- A concrete vertex used to instantiate the vertex-transform claims. -/
def testVertex : Vertex :=
  ⟨⟨3, -2, 7⟩, ⟨1, 2, 3⟩, ⟨0, 0⟩, Color.new 1 2 3, ⟨0, 0, 0⟩, ⟨0, 0, 0⟩⟩

/-! Claim theorems. -/

/-- C1: fragment_shader maps each selector 1 through 9 to the
correspondingly named material function, and every selector outside that
set returns exactly the color of the molten material, which is also the
color selector 5 produces; the dispatch is total and never fails. -/
theorem selector_totality (fragment : Fragment) (uniforms : Uniforms) :
    fragment_shader fragment uniforms 1 = black_and_white fragment uniforms ∧
    fragment_shader fragment uniforms 2 = dalmata_shader fragment uniforms ∧
    fragment_shader fragment uniforms 3 = cloud_shader fragment uniforms ∧
    fragment_shader fragment uniforms 4 = cellular_shader fragment uniforms ∧
    fragment_shader fragment uniforms 5 = lava_shader fragment uniforms ∧
    fragment_shader fragment uniforms 6 = solar_shader fragment uniforms ∧
    fragment_shader fragment uniforms 7 = rock_shader fragment uniforms ∧
    fragment_shader fragment uniforms 8 = rainforest_shader fragment uniforms ∧
    fragment_shader fragment uniforms 9 = clay_shader fragment uniforms ∧
    ∀ s : ℕ, ¬(1 ≤ s ∧ s ≤ 9) →
      fragment_shader fragment uniforms s = fragment_shader fragment uniforms 5 := by
  refine ⟨rfl, rfl, rfl, rfl, rfl, rfl, rfl, rfl, rfl, ?_⟩
  intro s hs
  show fragment_shader fragment uniforms s = lava_shader fragment uniforms
  unfold fragment_shader
  split
  all_goals first
    | rfl
    | (exfalso; omega)

/-- C1 witness: the unrecognized selector 99 yields the same color as
selector 5 on concrete inputs. -/
theorem selector_totality_witness :
    fragment_shader testFragment (testUniforms 0) 99 =
      fragment_shader testFragment (testUniforms 0) 5 :=
  (selector_totality testFragment
    (testUniforms 0)).2.2.2.2.2.2.2.2.2 99 (by omega)

/-- C2: both pipeline components are deterministic: repeated invocations
on fixed inputs agree, and the monochrome material depends only on the
position and intensity of the fragment (its pseudo-random draw is seeded
only from time and position), given the deterministic noise, sine and
draw capabilities of the embedding. -/
theorem shader_determinism (v : Vertex) (f f1 f2 : Fragment)
    (u : Uniforms) (s : ℕ)
    (hpos : f1.vertex_position = f2.vertex_position)
    (hint : f1.intensity = f2.intensity) :
    vertex_shader v u = vertex_shader v u ∧
    fragment_shader f u s = fragment_shader f u s ∧
    black_and_white f1 u = black_and_white f2 u := by
  refine ⟨rfl, rfl, ?_⟩
  unfold black_and_white black_and_white_precolor
  rw [hpos, hint]

/-- C2 witness: determinism at concrete inputs, including the monochrome
material on two fragments sharing position and intensity. -/
theorem shader_determinism_witness :
    vertex_shader testVertex (testUniforms 0) =
      vertex_shader testVertex (testUniforms 0) ∧
    fragment_shader testFragment (testUniforms 0) 1 =
      fragment_shader testFragment (testUniforms 0) 1 ∧
    black_and_white testFragment (testUniforms 0) =
      black_and_white testFragment (testUniforms 0) :=
  shader_determinism testVertex testFragment testFragment testFragment
    (testUniforms 0) 1 rfl rfl

/-- C8: solar_shader computes its color as exactly two chained linear
interpolations, core toward mid by the absolute averaged noise value and
then toward corona by the rescaled clamped factor, followed by the final
intensity scaling. -/
theorem solar_two_lerp_chain (f : Fragment) (u : Uniforms) :
    solar_shader f u =
      (((Color.new 255 255 200).lerp (Color.new 255 223 0)
          |solar_noise_value f u|).lerp (Color.new 255 140 0)
        (clampf (solar_noise_value f u * 0.5 + 0.5) 0 1)) * f.intensity := rfl

/-- C9: the dappled and cellular materials never read the time of the
bundle: two bundles agreeing on the noise capability produce identical
colors for the same fragment, whatever their times and other fields. -/
theorem dalmata_cellular_time_independent (f : Fragment) (u1 u2 : Uniforms)
    (h : u1.noise = u2.noise) :
    dalmata_shader f u1 = dalmata_shader f u2 ∧
    cellular_shader f u1 = cellular_shader f u2 := by
  constructor
  · unfold dalmata_shader dalmata_precolor
    rw [h]
  · unfold cellular_shader cellular_precolor
    rw [h]

/-- C9 witness: two concrete bundles sharing noise but with different
times give the same dappled and cellular colors. -/
theorem dalmata_cellular_time_independent_witness :
    dalmata_shader testFragment (testUniforms 0) =
      dalmata_shader testFragment { testUniforms 0 with time := 42 } ∧
    cellular_shader testFragment (testUniforms 0) =
      cellular_shader testFragment { testUniforms 0 with time := 42 } :=
  dalmata_cellular_time_independent testFragment (testUniforms 0)
    { testUniforms 0 with time := 42 } rfl

/-- C10: the monochrome seed is the plain product time * y * x through
absolute value and u64 truncation: inputs with equal truncated seeds and
equal intensity yield the same color, and any fragment with a zero x or
y coordinate, or any bundle with time 0, collapses to seed 0 and hence to
the single fixed seed-0 draw scaled by intensity. -/
theorem black_and_white_seed_collapse (f1 f2 : Fragment) (u1 u2 : Uniforms)
    (hrng : u1.rng_gen_range = u2.rng_gen_range)
    (hseed : f32AbsAsU64 (u1.time * f1.vertex_position.y * f1.vertex_position.x)
           = f32AbsAsU64 (u2.time * f2.vertex_position.y * f2.vertex_position.x))
    (hint : f1.intensity = f2.intensity) :
    black_and_white f1 u1 = black_and_white f2 u2 ∧
    ∀ (f : Fragment) (u : Uniforms),
      f.vertex_position.x = 0 ∨ f.vertex_position.y = 0 ∨ u.time = 0 →
      black_and_white f u =
        (if u.rng_gen_range 0 < 50 then Color.new 0 0 0
         else Color.new 255 255 255) * f.intensity := by
  constructor
  · simp only [black_and_white, black_and_white_precolor]
    rw [hrng, hseed, hint]
  · intro f u h
    have hs : u.time * f.vertex_position.y * f.vertex_position.x = 0 := by
      rcases h with h | h | h <;> simp [h]
    simp only [black_and_white, black_and_white_precolor]
    rw [hs]
    simp [f32AbsAsU64]

/-- C10 witness: a fragment with x = 0 at time 7 and a fragment away from
the origin at time 0 share the truncated seed 0 and produce the same
color. -/
theorem black_and_white_seed_collapse_witness :
    black_and_white ⟨⟨0, 5, 0⟩, ⟨0, 0, 1⟩, 0, 1⟩ { testUniforms 0 with time := 7 } =
      black_and_white ⟨⟨1, 2, 0⟩, ⟨0, 0, 1⟩, 0, 1⟩ (testUniforms 0) :=
  (black_and_white_seed_collapse ⟨⟨0, 5, 0⟩, ⟨0, 0, 1⟩, 0, 1⟩
    ⟨⟨1, 2, 0⟩, ⟨0, 0, 1⟩, 0, 1⟩ { testUniforms 0 with time := 7 }
    (testUniforms 0) rfl (by simp [f32AbsAsU64, testUniforms]) rfl).1

/-- C3 counterexample: with constant noise -1/2 (inside the conventional
noise range) and intensity exactly 1, the lava material computes an
unscaled color with green channel -90; the final intensity scaling clamps
it to 0, so the returned color differs from the unscaled material color
and the claim as frozen is false at this input. -/
theorem intensity_reproduce_counterexample :
    testFragment.intensity = 1 ∧
    lava_precolor testFragment (testUniforms (-1 / 2)) =
      Color.new (135 / 2) (-90) 0 ∧
    lava_shader testFragment (testUniforms (-1 / 2)) =
      Color.new (135 / 2) 0 0 ∧
    lava_shader testFragment (testUniforms (-1 / 2)) ≠
      lava_precolor testFragment (testUniforms (-1 / 2)) := by
  have hpre : lava_precolor testFragment (testUniforms (-1 / 2)) =
      Color.new (135 / 2) (-90) 0 := by
    norm_num [lava_precolor, lava_noise_value, testUniforms, testFragment,
      constNoise, Color.lerp, Color.new]
  have hsh : lava_shader testFragment (testUniforms (-1 / 2)) =
      Color.new (135 / 2) 0 0 := by
    rw [lava_shader, hpre]
    norm_num [testFragment, Color.mul_def, Color.scale, Color.new, clampf,
      min_def, max_def]
  refine ⟨rfl, hpre, hsh, ?_⟩
  rw [hpre, hsh]
  intro hcontra
  have := congrArg Color.g hcontra
  norm_num [Color.new] at this

/-- C3 amended: every one of the nine material functions multiplies its
computed color by the fragment intensity as the very last operation, and
that final scaling clamps each channel to the range 0 to 255; hence for a
computed color whose channels all lie in that range, an intensity between
0 and 1 scales every channel linearly toward 0 and intensity exactly 1
reproduces the unscaled color, while out-of-range channels (possible
after lerp extrapolation) are reproduced only up to that clamp. -/
theorem intensity_final_scaling_amended (f : Fragment) (u : Uniforms) :
    black_and_white f u = black_and_white_precolor f u * f.intensity ∧
    dalmata_shader f u = dalmata_precolor f u * f.intensity ∧
    cloud_shader f u = cloud_precolor f u * f.intensity ∧
    cellular_shader f u = cellular_precolor f u * f.intensity ∧
    lava_shader f u = lava_precolor f u * f.intensity ∧
    solar_shader f u = solar_precolor f u * f.intensity ∧
    rock_shader f u = rock_precolor f u * f.intensity ∧
    rainforest_shader f u = rainforest_precolor f u * f.intensity ∧
    clay_shader f u = clay_precolor f u * f.intensity ∧
    (∀ c : Color, c * (1 : ℚ) =
      Color.new (clampf c.r 0 255) (clampf c.g 0 255) (clampf c.b 0 255)) ∧
    ∀ c : Color, c.inRange →
      (∀ i : ℚ, 0 ≤ i → i ≤ 1 →
        c * i = Color.new (c.r * i) (c.g * i) (c.b * i)) ∧
      c * (1 : ℚ) = c := by
  refine ⟨rfl, rfl, rfl, rfl, rfl, rfl, rfl, rfl, rfl, ?_, ?_⟩
  · intro c
    rw [Color.mul_def]
    unfold Color.scale Color.new
    rw [mul_one, mul_one, mul_one]
  rintro ⟨r, g, b⟩ ⟨hr0, hr1, hg0, hg1, hb0, hb1⟩
  have key : ∀ i : ℚ, 0 ≤ i → i ≤ 1 →
      Color.mk r g b * i = Color.new (r * i) (g * i) (b * i) := by
    intro i h0 h1
    rw [Color.mul_def]
    unfold Color.scale Color.new
    have bound : ∀ x : ℚ, 0 ≤ x → x ≤ 255 → clampf (x * i) 0 255 = x * i := by
      intro x hx0 hx1
      refine clampf_eq_self (mul_nonneg hx0 h0) ?_
      calc x * i ≤ x * 1 := by
            exact mul_le_mul_of_nonneg_left h1 hx0
        _ = x := mul_one x
        _ ≤ 255 := hx1
    rw [bound r hr0 hr1, bound g hg0 hg1, bound b hb0 hb1]
  refine ⟨key, ?_⟩
  have h1 := key 1 (by norm_num) (by norm_num)
  simpa [Color.new] using h1

/-- C3 witness: the structural equality at concrete inputs, the clamped
reproduction at intensity 1 of a concrete out-of-range color, and the
scaling law at a concrete in-range color and intensity. -/
theorem intensity_final_scaling_amended_witness :
    dalmata_shader testFragment (testUniforms 0) =
      dalmata_precolor testFragment (testUniforms 0) * testFragment.intensity ∧
    Color.new 100 (-90) 300 * (1 : ℚ) = Color.new 100 0 255 ∧
    Color.new 10 20 30 * (1 / 2 : ℚ) = Color.new 5 10 15 ∧
    Color.new 10 20 30 * (1 : ℚ) = Color.new 10 20 30 := by
  have h := intensity_final_scaling_amended testFragment (testUniforms 0)
  have hclamp := h.2.2.2.2.2.2.2.2.2.1 (Color.new 100 (-90) 300)
  have hc := h.2.2.2.2.2.2.2.2.2.2 (Color.new 10 20 30)
    (by norm_num [Color.inRange, Color.new])
  refine ⟨h.2.1, ?_, ?_, hc.2⟩
  · rw [hclamp]
    norm_num [Color.new, clampf, min_def, max_def]
  · have hhalf := hc.1 (1 / 2) (by norm_num) (by norm_num)
    rw [hhalf]
    norm_num [Color.new]

/-- C4: with identity projection, view, model and viewport matrices the
vertex shader returns a screen-space position exactly equal to the input
position: the homogeneous lift has w = 1 and the perspective divide is by
that w. -/
theorem perspective_divide_identity (v : Vertex) (u : Uniforms)
    (hp : u.projection_matrix = Mat4.identity)
    (hv : u.view_matrix = Mat4.identity)
    (hm : u.model_matrix = Mat4.identity)
    (hvp : u.viewport_matrix = Mat4.identity) :
    (vertex_shader v u).transformed_position = v.position := by
  obtain ⟨⟨px, py, pz⟩, n, tc, c, tp, tn⟩ := v
  simp only [vertex_shader, hp, hv, hm, hvp, Mat4.mul_identity_identity,
    Mat4.identity_mulVec4]
  simp

/-- C4 witness: the identity bundle leaves a concrete vertex position
unchanged. -/
theorem perspective_divide_identity_witness :
    (vertex_shader testVertex (testUniforms 0)).transformed_position =
      testVertex.position :=
  perspective_divide_identity testVertex (testUniforms 0) rfl rfl rfl rfl

/-- C5: when the upper-left 3x3 block of the model matrix is singular,
the vertex shader substitutes the identity for the inverse-transpose
normal matrix, so the transformed normal equals the input normal and the
function does not fail. -/
theorem singular_normal_fallback (v : Vertex) (u : Uniforms)
    (h : (mat4_to_mat3 u.model_matrix).det = 0) :
    (vertex_shader v u).transformed_normal = v.normal := by
  have hdt : (mat4_to_mat3 u.model_matrix).transpose.det = 0 := by
    rw [Mat3.det_transpose]
    exact h
  simp only [vertex_shader, Mat3.tryInverse, hdt, if_pos]
  simp [Mat3.identity_mulVec3]

/-- C5 witness: a concrete bundle whose model matrix has an all-zero
3x3 block leaves a concrete normal untransformed. -/
theorem singular_normal_fallback_witness :
    (vertex_shader testVertex
      { testUniforms 0 with
          model_matrix := ⟨0, 0, 0, 0, 0, 0, 0, 0, 0, 0, 0, 0, 0, 0, 0, 1⟩ }).transformed_normal
      = testVertex.normal :=
  singular_normal_fallback testVertex
    { testUniforms 0 with
        model_matrix := ⟨0, 0, 0, 0, 0, 0, 0, 0, 0, 0, 0, 0, 0, 0, 0, 1⟩ }
    (by simp [mat4_to_mat3, Mat3.det])

/-- C6: rock_shader classifies the averaged noise value by ordered strict
comparisons against the thresholds 0.6, 0.4, 0.2, 0, -0.2 and -0.4 into
seven palette colors, a value exactly at a threshold falling into the
range below it, and the full shader applies the diffuse lighting factor
and the intensity after that classification. -/
theorem rock_threshold_classification (v : ℚ) :
    (0.6 < v → rock_base_color v = Color.new 245 222 179) ∧
    (0.4 < v → v ≤ 0.6 → rock_base_color v = Color.new 222 184 135) ∧
    (0.2 < v → v ≤ 0.4 → rock_base_color v = Color.new 210 180 140) ∧
    (0 < v → v ≤ 0.2 → rock_base_color v = Color.new 188 143 143) ∧
    (-0.2 < v → v ≤ 0 → rock_base_color v = Color.new 205 133 63) ∧
    (-0.4 < v → v ≤ -0.2 → rock_base_color v = Color.new 139 69 19) ∧
    (v ≤ -0.4 → rock_base_color v = Color.new 160 82 45) ∧
    ∀ (f : Fragment) (u : Uniforms),
      rock_shader f u =
        (rock_base_color (rock_noise_value f u) *
          (0.6 + 0.4 * max (Vec3.dot ⟨2 / 3, 2 / 3, 1 / 3⟩ f.normal) 0)) *
          f.intensity := by
  refine ⟨?_, ?_, ?_, ?_, ?_, ?_, ?_, fun f u => rfl⟩
  all_goals
    intros
    simp only [rock_base_color, Color.new]
    split_ifs
    all_goals first
      | rfl
      | (exfalso; linarith)

/-- C6 witness: concrete classifications at a value above the top
threshold, at a threshold boundary, and below the bottom threshold. -/
theorem rock_threshold_classification_witness :
    rock_base_color 1 = Color.new 245 222 179 ∧
    rock_base_color 0.6 = Color.new 222 184 135 ∧
    rock_base_color (-0.4) = Color.new 160 82 45 :=
  ⟨(rock_threshold_classification 1).1 (by norm_num),
   (rock_threshold_classification 0.6).2.1 (by norm_num) (by norm_num),
   (rock_threshold_classification (-0.4)).2.2.2.2.2.2.1 (by norm_num)⟩

/-- C7: the dappled material through selector 2 returns white at noise
value 0.3 with intensity 1, and black at noise value 0.8 with intensity
one half. -/
theorem dalmata_concrete_scenarios :
    fragment_shader testFragment (testUniforms 0.3) 2 = Color.new 255 255 255 ∧
    fragment_shader testFragmentHalf (testUniforms 0.8) 2 = Color.new 0 0 0 := by
  constructor
  · show dalmata_shader _ _ = _
    simp only [dalmata_shader, dalmata_precolor, testUniforms, constNoise,
      testFragment, Color.mul_def, Color.scale, Color.new, clampf]
    norm_num
  · show dalmata_shader _ _ = _
    simp only [dalmata_shader, dalmata_precolor, testUniforms, constNoise,
      testFragmentHalf, Color.mul_def, Color.scale, Color.new, clampf]
    norm_num

end Lab4
